import Mathlib

/-!
Shallow embedding of the TCP/TLS transport subsystem found in
src/source/server/win/server_transport_tcp.c, together with theorems that
settle the specification claims about it.

Machine integers are modelled as Nat with explicit reduction modulo 2^32
where the C code performs DWORD (unsigned 32-bit) arithmetic.  Values
returned by external calls (SSL_read, SSL_write, connect, getsockname,
malloc, the crypto handlers, timestamps) are supplied by environment
records, so that every Lean evaluation corresponds to one concrete
execution of the C code under that environment.
-/

namespace MeterpreterTcp

/-- 2^32, the modulus of DWORD arithmetic. -/
def DWORD_MOD : Nat := 4294967296

/-- Conversion of a C int to DWORD: two-complement reduction modulo 2^32. -/
def toDword (r : Int) : Nat := (r % (4294967296 : Int)).toNat

/-- DWORD subtraction a - b modulo 2^32, as in ((DWORD)now - (DWORD)start). -/
def dwordSub (a b : Nat) : Nat := (a % DWORD_MOD + (DWORD_MOD - b % DWORD_MOD)) % DWORD_MOD

/-- The four bytes of a 32-bit value in network (big-endian) order, as htonl
stores them in memory. -/
def toBytesBE (x : Nat) : List Nat :=
  [x / 16777216 % 256, x / 65536 % 256, x / 256 % 256, x % 256]

/-- Read a big-endian byte sequence back into a value, as ntohl does. -/
def fromBytesBE (bs : List Nat) : Nat := bs.foldl (fun a b => a * 256 + b) 0

/-- Windows ERROR_SUCCESS. -/
def ERROR_SUCCESS : Nat := 0

/-- Windows ERROR_NOT_FOUND. -/
def ERROR_NOT_FOUND : Nat := 1168

/-- Windows ERROR_NOT_ENOUGH_MEMORY. -/
def ERROR_NOT_ENOUGH_MEMORY : Nat := 8

/-- SOCKET_ERROR (-1) viewed as a DWORD, the value reverse_tcp_run returns on
terminal connect failure. -/
def SOCKET_ERROR_DWORD : Nat := 4294967295

/-- The transport kind tag for SSL over TCP.  The enumerator lives in a header
that is not part of this repository; only its identity matters here, so the
first enumeration value is used. -/
def METERPRETER_TRANSPORT_SSL : Nat := 0

/-- Windows AF_INET. -/
def AF_INET : Nat := 2

/-- Windows AF_INET6. -/
def AF_INET6 : Nat := 23

/-- OpenSSL SSL_ERROR_WANT_READ. -/
def SSL_ERROR_WANT_READ : Nat := 2

/-- OpenSSL SSL_ERROR_WANT_WRITE. -/
def SSL_ERROR_WANT_WRITE : Nat := 3

/-- Modelled from the spec: the numeric PLAIN_REQUEST packet type.  The type
constants live outside this repository; the concrete transmit scenario in the
spec fixes the PLAIN_REQUEST wire type bytes to 00 00 00 01, hence host
value 1. -/
def PACKET_TLV_TYPE_PLAIN_REQUEST : Nat := 1

/-- Modelled from the spec: the numeric PLAIN_RESPONSE packet type.  The spec
does not fix its value; any value distinct from PLAIN_REQUEST and from 0
works, 2 is used. -/
def PACKET_TLV_TYPE_PLAIN_RESPONSE : Nat := 2

/-- The external crypto collaborator: each handler returns a DWORD result code
and the output buffer; the codec checks the code against ERROR_SUCCESS. -/
structure CryptoContext where
  encrypt : List Nat → Nat × List Nat
  decrypt : List Nat → Nat × List Nat

/-- A packet as the transmitter sees it: the stored header.length and
header.type fields as raw 4-byte memory images (network byte order), the
payload buffer, and whether a TLV_TYPE_REQUEST_ID is already attached. -/
structure Packet where
  lengthBytes : List Nat
  typeBytes : List Nat
  payload : List Nat
  hasRequestId : Bool
  deriving DecidableEq

/-- Modelled from the spec: packet_get_type is external to this repository;
per the spec the type is stored in network order inside the packet, so the
accessor converts it to host order. -/
def packet_get_type (p : Packet) : Nat := fromBytesBE p.typeBytes

/-- Modelled from the spec: packet_get_tlv_string and packet_add_tlv_string
are external to this repository.  The spec says a 31-byte printable request
id is generated and attached when missing; the concrete transmit scenario of
the spec fixes that the attachment leaves the emitted header and payload
unchanged, so the attachment is modelled as metadata only. -/
def attachRequestId (p : Packet) : Packet :=
  if p.hasRequestId then p else { p with hasRequestId := true }

/-- One SSL_write retry loop of packet_transmit_via_ssl.  The schedule lists
the int returned by each successive SSL_write call.  In the C code the
accumulator idx and the result res are DWORDs, so the comparison res <= 0 is
unsigned and only fires on 0, the comparison res < 0 never fires, and a
negative return is added to idx modulo 2^32.  zeroBreaks distinguishes the
header loop (which breaks on a 0 return) from the payload loop (which loops
forever on a 0 return, modelled as none).  A positive return larger than the
remaining byte count cannot arise from SSL_write, so such schedules are
rejected as none.  Returns the bytes emitted on the wire. -/
def writeLoopTx (data : List Nat) (size : Nat) (zeroBreaks : Bool) :
    List Int → Nat → Option (List Nat)
  | [], idx => if size ≤ idx then some [] else none
  | r :: rest, idx =>
    if size ≤ idx then some []
    else if toDword r = 0 then
      if zeroBreaks then some [] else none
    else if 0 < r then
      if size - idx < r.toNat then none
      else
        match writeLoopTx data size zeroBreaks rest (idx + r.toNat) with
        | none => none
        | some em => some ((data.drop idx).take r.toNat ++ em)
    else
      writeLoopTx data size zeroBreaks rest ((idx + toDword r) % DWORD_MOD)

/-- Environment of one packet_transmit_via_ssl call: the installed cipher (if
any) and the SSL_write return schedules of the header and payload loops. -/
structure TxEnv where
  crypto : Option CryptoContext
  headerSched : List Int
  payloadSched : List Int

/-- packet_transmit_via_ssl: attach a request id if missing, encrypt when a
cipher is installed and the packet type is not plaintext (updating
header.length to htonl(payloadLength + sizeof(TlvHeader))), then drive the
header and payload write loops.  Returns the DWORD result and the bytes
emitted on the wire, or none when the schedule does not determine an
execution that returns. -/
def packet_transmit_via_ssl (env : TxEnv) (p0 : Packet) : Option (Nat × List Nat) :=
  let p1 := attachRequestId p0
  let enc : Nat × Packet :=
    match env.crypto with
    | some c =>
      if packet_get_type p1 = PACKET_TLV_TYPE_PLAIN_REQUEST ∨
          packet_get_type p1 = PACKET_TLV_TYPE_PLAIN_RESPONSE then
        (ERROR_SUCCESS, p1)
      else
        let re := c.encrypt p1.payload
        if re.1 ≠ ERROR_SUCCESS then (re.1, p1)
        else
          (ERROR_SUCCESS,
            { p1 with payload := re.2, lengthBytes := toBytesBE (re.2.length + 8) })
    | none => (ERROR_SUCCESS, p1)
  if enc.1 ≠ ERROR_SUCCESS then some (enc.1, [])
  else
    let p := enc.2
    match writeLoopTx (p.lengthBytes ++ p.typeBytes) 8 true env.headerSched 0 with
    | none => none
    | some hEm =>
      match writeLoopTx p.payload p.payload.length false env.payloadSched 0 with
      | none => none
      | some pEm => some (ERROR_SUCCESS, hEm ++ pEm)

/-- A well-formed PLAIN_REQUEST packet with payload ping, wire header
00 00 00 0C 00 00 00 01. -/
def pingPacket : Packet :=
  { lengthBytes := toBytesBE 12, typeBytes := toBytesBE PACKET_TLV_TYPE_PLAIN_REQUEST,
    payload := [112, 105, 110, 103], hasRequestId := true }

/-- Failing environment for claim C1: no cipher; the header write succeeds in
one call; the payload write returns 2, then -1 (an SSL error), then 3. -/
def c1Env : TxEnv := { crypto := none, headerSched := [8], payloadSched := [2, -1, 3] }

/-- Outcome of one SSL_read call inside packet_receive_via_ssl: some bytes,
a 0 return, or a negative return.  The Bool on the failing outcomes records
whether GetLastError() equals WSAEWOULDBLOCK at the check in the payload
loop (the header loop ignores it). -/
inductive ReadChunk where
  | bytes : List Nat → ReadChunk
  | rzero : Bool → ReadChunk
  | rneg : Bool → ReadChunk
  deriving DecidableEq

/-- The header read loop of packet_receive_via_ssl: read until headerBytes
equals sizeof(TlvHeader) = 8, breaking on any SSL_read return of at most 0.
SSL_read cannot deliver 0 bytes or more bytes than requested, so such
schedules are rejected as none; an exhausted schedule inside the loop is
also none.  Returns the accumulated header bytes, whether the header
completed, and the unconsumed schedule. -/
def rxHeaderLoop : List ReadChunk → Nat → List Nat → Option (List Nat × Bool × List ReadChunk)
  | [], hb, acc => if hb = 8 then some (acc, true, []) else none
  | c :: rest, hb, acc =>
    if hb = 8 then some (acc, true, c :: rest)
    else
      match c with
      | .bytes bs =>
        if bs.length = 0 ∨ 8 - hb < bs.length then none
        else rxHeaderLoop rest (hb + bs.length) (acc ++ bs)
      | .rzero _ => some (acc, false, rest)
      | .rneg _ => some (acc, false, rest)

/-- The payload read loop of packet_receive_via_ssl: read until
payloadBytesLeft reaches 0, retrying when the failing call reports
WSAEWOULDBLOCK and breaking otherwise.  Returns the accumulated payload,
the remaining byte count at loop exit, and the unconsumed schedule. -/
def rxPayloadLoop : List ReadChunk → Nat → List Nat → Option (List Nat × Nat × List ReadChunk)
  | [], left, acc => if left = 0 then some (acc, 0, []) else none
  | c :: rest, left, acc =>
    if left = 0 then some (acc, 0, c :: rest)
    else
      match c with
      | .bytes bs =>
        if bs.length = 0 ∨ left < bs.length then none
        else rxPayloadLoop rest (left - bs.length) (acc ++ bs)
      | .rzero wb => if wb then rxPayloadLoop rest left acc else some (acc, left, rest)
      | .rneg wb => if wb then rxPayloadLoop rest left acc else some (acc, left, rest)

/-- Environment of one packet_receive_via_ssl call: the SSL_read outcomes,
whether the two malloc calls succeed, and the installed cipher. -/
structure RxEnv where
  reads : List ReadChunk
  payloadMallocOk : Bool
  packetMallocOk : Bool
  crypto : Option CryptoContext

/-- The packet handed to the caller of packet_receive_via_ssl: the stored
header fields (raw wire bytes), the payload buffer and its recorded
length. -/
structure PacketOut where
  lengthBytes : List Nat
  typeBytes : List Nat
  payload : List Nat
  payloadLength : Nat
  deriving DecidableEq

/-- Assemble the outgoing packet from the 8 wire header bytes and the final
payload buffer; the C code stores the header fields unconverted and the
payloadLength variable always equals the byte count of the buffer it
describes. -/
def mkPacketOut (hdr pl : List Nat) : PacketOut :=
  { lengthBytes := hdr.take 4, typeBytes := (hdr.drop 4).take 4,
    payload := pl, payloadLength := pl.length }

/-- packet_receive_via_ssl: read the 8-byte header, compute
payloadLength = ntohl(header.length) - sizeof(TlvHeader) in ULONG
arithmetic, read the payload, allocate and zero the packet structure, then
decide decryption.  The C code consults packet_get_type(localPacket) on the
packet it has just zeroed - before the header is copied in - so the type
used in the plaintext check is 0, never the received type.  Returns the
DWORD result and the delivered packet. -/
def packet_receive_via_ssl (env : RxEnv) : Option (Nat × Option PacketOut) :=
  match rxHeaderLoop env.reads 0 [] with
  | none => none
  | some (hdr, complete, rest) =>
    if complete = false then some (ERROR_NOT_FOUND, none)
    else
      let payloadLength := dwordSub (fromBytesBE (hdr.take 4)) 8
      if env.payloadMallocOk = false then some (ERROR_NOT_ENOUGH_MEMORY, none)
      else
        match rxPayloadLoop rest payloadLength [] with
        | none => none
        | some (pay, left, _) =>
          if left ≠ 0 then some (ERROR_NOT_FOUND, none)
          else if env.packetMallocOk = false then some (ERROR_NOT_ENOUGH_MEMORY, none)
          else
            let zeroedType : Nat := 0
            match env.crypto with
            | some c =>
              if zeroedType = PACKET_TLV_TYPE_PLAIN_REQUEST ∨
                  zeroedType = PACKET_TLV_TYPE_PLAIN_RESPONSE then
                some (ERROR_SUCCESS, some (mkPacketOut hdr pay))
              else
                let rd := c.decrypt pay
                if rd.1 ≠ ERROR_SUCCESS then some (rd.1, none)
                else some (ERROR_SUCCESS, some (mkPacketOut hdr rd.2))
            | none => some (ERROR_SUCCESS, some (mkPacketOut hdr pay))

/-- A cipher whose decrypt visibly transforms its input by prepending a 0
byte, so that decryption of a received packet is observable. -/
def c2Crypto : CryptoContext :=
  { encrypt := fun bs => (ERROR_SUCCESS, bs),
    decrypt := fun bs => (ERROR_SUCCESS, 0 :: bs) }

/-- Failing environment for claim C2: a cipher is installed and the wire
carries a PLAIN_REQUEST packet (type bytes 00 00 00 01) with payload ping. -/
def c2Env : RxEnv :=
  { reads := [ReadChunk.bytes (toBytesBE 12 ++ toBytesBE PACKET_TLV_TYPE_PLAIN_REQUEST),
              ReadChunk.bytes [112, 105, 110, 103]],
    payloadMallocOk := true, packetMallocOk := true, crypto := some c2Crypto }

/-- A cipher whose decrypt returns a 3-byte buffer regardless of input, the
external collaborator contract allowing output lengths to differ from input
lengths. -/
def c8Crypto : CryptoContext :=
  { encrypt := fun bs => (ERROR_SUCCESS, bs),
    decrypt := fun _ => (ERROR_SUCCESS, [170, 187, 204]) }

/-- Counterexample environment for claim C8: cipher installed, wire header
length 12 (so 4 payload bytes on the wire), non-plaintext wire type 5. -/
def c8Env : RxEnv :=
  { reads := [ReadChunk.bytes (toBytesBE 12 ++ toBytesBE 5),
              ReadChunk.bytes [1, 2, 3, 4]],
    payloadMallocOk := true, packetMallocOk := true, crypto := some c8Crypto }

/-- Witness environment for the amended claim C8: no cipher, wire header
length 12, wire type 5, payload bytes 9 8 7 6. -/
def c8wEnv : RxEnv :=
  { reads := [ReadChunk.bytes (toBytesBE 12 ++ toBytesBE 5),
              ReadChunk.bytes [9, 8, 7, 6]],
    payloadMallocOk := true, packetMallocOk := true, crypto := none }

/-- The packet delivered by a receive under c8wEnv. -/
def c8wPacket : PacketOut :=
  { lengthBytes := [0, 0, 0, 12], typeBytes := [0, 0, 0, 5],
    payload := [9, 8, 7, 6], payloadLength := 4 }

/-- The 27 cover-traffic bytes GET /123456789 HTTP/1.0 CR LF CR LF written
after the TLS handshake. -/
def coverTraffic : List Nat :=
  [71, 69, 84, 32, 47, 49, 50, 51, 52, 53, 54, 55, 56, 57, 32,
   72, 84, 84, 80, 47, 49, 46, 48, 13, 10, 13, 10]

/-- The SSL_connect retry loop of server_negotiate_ssl: each schedule entry
is the int returned by SSL_connect together with the SSL_get_error code
consulted on a non-1 return; want-read and want-write retry, any other
error fails.  none when the schedule is exhausted inside the loop. -/
def handshakeLoop : List (Int × Nat) → Option Bool
  | [] => none
  | s :: rest =>
    if toDword s.1 = 1 then some true
    else if s.2 = SSL_ERROR_WANT_READ ∨ s.2 = SSL_ERROR_WANT_WRITE then handshakeLoop rest
    else some false

/-- Environment of one server_negotiate_ssl call: whether SSL_set_fd
succeeds, the handshake schedule, and the int returned by the cover-traffic
SSL_write. -/
structure NegotiateEnv where
  setFdOk : Bool
  handshake : List (Int × Nat)
  writeRet : Int

/-- server_negotiate_ssl: set up the TLS objects, bind the fd, drive the
handshake, then write the cover-traffic GET once.  ret is a DWORD in the C
code, so the check ret <= 0 after the write is unsigned (it only logs, and
only on a 0 return) and the final check ret < 0 is unsigned and never
fires.  Returns the BOOL result and the list of buffers written on the TLS
session. -/
def server_negotiate_ssl (env : NegotiateEnv) : Option (Bool × List (List Nat)) :=
  if env.setFdOk = false then some (false, [])
  else
    match handshakeLoop env.handshake with
    | none => none
    | some false => some (false, [])
    | some true =>
      let ret := toDword env.writeRet
      some (if ret < 0 then false else true, [coverTraffic])

/-- Witness environment for claim C5: the fd binds, the handshake succeeds on
the first attempt, and the cover-traffic write fails with a 0 return. -/
def c5Env : NegotiateEnv := { setFdOk := true, handshake := [((1 : Int), 0)], writeRet := 0 }

/-- One iteration of the reverse_tcp_run retry loop: whether connect
succeeds, the timestamp observed at the expiry check after a failed
connect, and the timestamp observed in the while condition after the
sleep. -/
structure TcpIter where
  connectOk : Bool
  tAfterConnect : Nat
  tAfterSleep : Nat
  deriving DecidableEq

/-- Observable actions of reverse_tcp_run: a connect attempt, a Sleep of the
given milliseconds, and closesocket on the reverse socket. -/
inductive TcpEvent where
  | connectAttempt : TcpEvent
  | sleepEv : Nat → TcpEvent
  | closeEv : TcpEvent
  deriving DecidableEq

/-- reverse_tcp_run: loop connect attempts; break on success, break on
current time at or past expiry, otherwise sleep retryWait seconds and
continue while the DWORD difference now - start stays below retryTotal; on
terminal failure (result still SOCKET_ERROR) close the socket.  Returns the
DWORD result and the event trace, or none when the schedule runs out inside
the loop. -/
def reverse_tcp_run (expiry retryTotal retryWait start : Nat) : List TcpIter → Option (Nat × List TcpEvent)
  | [] => none
  | it :: rest =>
    if it.connectOk then some (ERROR_SUCCESS, [TcpEvent.connectAttempt])
    else if expiry ≤ it.tAfterConnect then
      some (SOCKET_ERROR_DWORD, [TcpEvent.connectAttempt, TcpEvent.closeEv])
    else if dwordSub it.tAfterSleep start < retryTotal then
      match reverse_tcp_run expiry retryTotal retryWait start rest with
      | none => none
      | some (r, evs) =>
        some (r, TcpEvent.connectAttempt :: TcpEvent.sleepEv (retryWait * 1000) :: evs)
    else
      some (SOCKET_ERROR_DWORD,
        [TcpEvent.connectAttempt, TcpEvent.sleepEv (retryWait * 1000), TcpEvent.closeEv])

/-- The condition under which a failed connect attempt is followed by another
one: the expiry check passed and the elapsed DWORD time stayed below
retryTotal. -/
def iterKeepsGoing (expiry retryTotal start : Nat) (it : TcpIter) : Prop :=
  it.tAfterConnect < expiry ∧ dwordSub it.tAfterSleep start < retryTotal

/-- The event trace of n failed connect attempts each followed by a sleep. -/
def retryEvs (retryWait : Nat) : Nat → List TcpEvent
  | 0 => []
  | n + 1 => TcpEvent.connectAttempt :: TcpEvent.sleepEv (retryWait * 1000) :: retryEvs retryWait n

/-- Witness schedule for claim C6: one failed attempt within both budgets,
then a successful connect. -/
def c6Iters : List TcpIter :=
  [{ connectOk := false, tAfterConnect := 5, tAfterSleep := 6 },
   { connectOk := true, tAfterConnect := 7, tAfterSleep := 8 }]

/-- One iteration of the server_dispatch_tcp loop: the termination-event
poll, the select result, the packet_receive result and command_handle
verdict used when the select reported readiness, and the timestamp taken in
that iteration. -/
structure DispatchIter where
  sigterm : Bool
  pollResult : Int
  recvResult : Nat
  cmdContinue : Bool
  tNow : Nat
  deriving DecidableEq

/-- The while loop of server_dispatch_tcp, threading the result variable and
lastPacket.  On readiness: receive (break on failure with that result),
dispatch to command_handle (break on a stop verdict), record lastPacket.
On a 0 select result: exit with ERROR_SUCCESS when now is past
expiration_end or now - lastPacket exceeds timeouts.comms.  On a negative
select result: break with it.  Returns the DWORD result and the number of
command_handle calls performed, or none when the schedule runs out. -/
def server_dispatch_loop (expirationEnd comms : Nat) : Int → Nat → List DispatchIter → Option (Nat × Nat)
  | result, _, [] =>
    let _ := result
    none
  | result, lastPacket, it :: rest =>
    if it.sigterm then some (toDword result, 0)
    else if 0 < it.pollResult then
      if it.recvResult ≠ ERROR_SUCCESS then some (it.recvResult, 0)
      else if it.cmdContinue then
        match server_dispatch_loop expirationEnd comms 0 it.tNow rest with
        | none => none
        | some (r, c) => some (r, c + 1)
      else some (ERROR_SUCCESS, 1)
    else if it.pollResult = 0 then
      if expirationEnd < it.tNow ∨ (comms : Int) < (it.tNow : Int) - (lastPacket : Int) then
        some (ERROR_SUCCESS, 0)
      else server_dispatch_loop expirationEnd comms 0 lastPacket rest
    else some (toDword it.pollResult, 0)

/-- server_dispatch_tcp: bring up the scheduler (returning its result on
failure), stamp lastPacket with the current time, then run the loop. -/
def server_dispatch_tcp (schedulerInitResult : Nat) (expirationEnd comms startTime : Nat)
    (iters : List DispatchIter) : Option (Nat × Nat) :=
  if schedulerInitResult ≠ ERROR_SUCCESS then some (schedulerInitResult, 0)
  else server_dispatch_loop expirationEnd comms 0 startTime iters

/-- Witness iteration for claim C7: no termination signal, a select timeout,
and a timestamp 11 seconds past the last packet. -/
def c7Iter : DispatchIter :=
  { sigterm := false, pollResult := 0, recvResult := 0, cmdContinue := true, tNow := 111 }

/-- A captured sockaddr_storage record: the address family, the port field
(sin_port for v4, sin6_port for v6, both kept in network order and only
ever compared for equality), and the remaining opaque address bytes. -/
structure SockAddrStorage where
  family : Nat
  port : Nat
  data : List Nat
  deriving DecidableEq

/-- The TcpTransportContext fields the claims are about: the stream handle,
the captured address with its recorded size, and the bound flag. -/
structure TcpTransportContext where
  fd : Nat
  sock_desc : SockAddrStorage
  sock_desc_size : Nat
  bound : Bool
  deriving DecidableEq

/-- The Transport fields the claims are about: the kind tag and the owned
context. -/
structure Transport where
  type : Nat
  ctx : TcpTransportContext
  deriving DecidableEq

/-- transport_reset_tcp: for an SSL-type transport the C code calls malloc
for a brand-new TcpTransportContext instead of using transport->ctx, closes
whatever handle the uninitialized allocation happens to contain, zeroes
that fresh copy and leaks it.  The transport and its real context are never
touched.  freshCtx supplies the uninitialized contents of the allocation.
Returns the transport after the call, the leaked fresh context, and the
list of handles passed to closesocket. -/
def transport_reset_tcp (t : Option Transport) (freshCtx : TcpTransportContext) :
    Option Transport × TcpTransportContext × List Nat :=
  match t with
  | none => (none, freshCtx, [])
  | some tr =>
    if tr.type = METERPRETER_TRANSPORT_SSL then
      (some tr, { freshCtx with fd := 0 }, if freshCtx.fd ≠ 0 then [freshCtx.fd] else [])
    else (some tr, freshCtx, [])

/-- Concrete SSL transport for claim C3, with stream handle 5 and a captured
bound v4 address. -/
def c3Transport : Transport :=
  { type := METERPRETER_TRANSPORT_SSL,
    ctx := { fd := 5, sock_desc := { family := AF_INET, port := 4444, data := [7, 7] },
             sock_desc_size := 16, bound := true } }

/-- Uninitialized contents of the context malloc performed by
transport_reset_tcp in the C3 scenario: the garbage fd field reads 77. -/
def c3Fresh : TcpTransportContext :=
  { fd := 77, sock_desc := { family := 0, port := 0, data := [] },
    sock_desc_size := 0, bound := false }

/-- transport_get_socket_tcp: the context fd for a non-null SSL transport,
0 otherwise. -/
def transport_get_socket_tcp : Option Transport → Nat
  | none => 0
  | some t => if t.type = METERPRETER_TRANSPORT_SSL then t.ctx.fd else 0

/-- Concrete SSL transport for the C9 witness, with stream handle 7. -/
def c9SslTransport : Transport :=
  { type := METERPRETER_TRANSPORT_SSL,
    ctx := { fd := 7, sock_desc := { family := AF_INET, port := 1, data := [] },
             sock_desc_size := 16, bound := false } }

/-- Concrete non-SSL transport for the C9 witness. -/
def c9OtherTransport : Transport :=
  { type := 3,
    ctx := { fd := 9, sock_desc := { family := AF_INET, port := 1, data := [] },
             sock_desc_size := 16, bound := false } }

/-- The sizeof(struct sockaddr_storage) value assigned to sock_desc_size
before each getsockname / getpeername call. -/
def SIZEOF_SOCKADDR_STORAGE : Nat := 128

/-- Environment of one infer_staged_connection_type call: the getsockname
result on the inherited socket, the SO_ACCEPTCONN getsockopt and
getsockname results per candidate handle (none meaning the call failed),
and the getpeername result; successful address calls also report the size
they write back. -/
structure ProbeEnv where
  selfName : Option (SockAddrStorage × Nat)
  candListening : Nat → Option Bool
  candName : Nat → Option (SockAddrStorage × Nat)
  peerName : Option (SockAddrStorage × Nat)

/-- Whether scan step i of infer_staged_connection_type accepts candidate
handle fd - 4 * i: the candidate must report SO_ACCEPTCONN, getsockname
must succeed, the family must match the captured local address, and then
the C code compares ports - with == for AF_INET but with != for AF_INET6. -/
def probeMatch (env : ProbeEnv) (desc : SockAddrStorage) (fd : Nat) (i : Nat) : Bool :=
  let h := dwordSub fd (4 * i)
  match env.candListening h, env.candName h with
  | some true, some an =>
    decide (an.1.family = desc.family) &&
      (if an.1.family = AF_INET then decide (an.1.port = desc.port)
       else if an.1.family = AF_INET6 then decide (an.1.port ≠ desc.port)
       else false)
  | _, _ => false

/-- The scan of infer_staged_connection_type over i = 1..16, returning the
first accepted candidate handle. -/
def findListen (env : ProbeEnv) (desc : SockAddrStorage) (fd : Nat) : Option Nat :=
  ((List.range' 1 16).find? (fun i => probeMatch env desc fd i)).map (fun i => dwordSub fd (4 * i))

/-- infer_staged_connection_type: stash the socket, default bound to false,
capture the local address via getsockname, scan sibling handles for a
matching listener; on a match set bound, re-capture the listener address
into sock_desc and close the listener; otherwise overwrite sock_desc with
the getpeername result.  Failed address calls leave the previous sock_desc
contents and the freshly assigned sizeof in sock_desc_size.  Returns the
resulting context and the handles passed to closesocket. -/
def infer_staged_connection_type (env : ProbeEnv) (ctx0 : TcpTransportContext) (sock : Nat) :
    TcpTransportContext × List Nat :=
  let descSelf :=
    match env.selfName with
    | some an => an
    | none => (ctx0.sock_desc, SIZEOF_SOCKADDR_STORAGE)
  let ctx1 : TcpTransportContext :=
    { fd := sock, bound := false, sock_desc := descSelf.1, sock_desc_size := descSelf.2 }
  match findListen env descSelf.1 sock with
  | some h =>
    match env.candName h with
    | some an => ({ ctx1 with bound := true, sock_desc := an.1, sock_desc_size := an.2 }, [h])
    | none => ({ ctx1 with bound := true, sock_desc_size := SIZEOF_SOCKADDR_STORAGE }, [h])
  | none =>
    match env.peerName with
    | some an => ({ ctx1 with sock_desc := an.1, sock_desc_size := an.2 }, [])
    | none => ({ ctx1 with sock_desc_size := SIZEOF_SOCKADDR_STORAGE }, [])

/-- Failing environment for claim C4: the inherited socket has local v6 port
4444; the only visible sibling handle, 96, is a listening v6 socket on a
DIFFERENT port 5555; there is no equal-port candidate anywhere. -/
def c4Env : ProbeEnv :=
  { selfName := some ({ family := AF_INET6, port := 4444, data := [] }, 28),
    candListening := fun h => if h = 96 then some true else none,
    candName := fun h => if h = 96 then some ({ family := AF_INET6, port := 5555, data := [] }, 28) else none,
    peerName := some ({ family := AF_INET6, port := 4444, data := [1] }, 28) }

/-- Pre-call contents of the context in the C4 scenario. -/
def c4Ctx0 : TcpTransportContext :=
  { fd := 0, sock_desc := { family := 0, port := 0, data := [] },
    sock_desc_size := 0, bound := false }

/-- Environment of one reverse_tcp4 call: the WSAStartup failure code when it
fails, whether gethostbyname returns a host entry (on a null return the C
code dereferences it, so no value is returned), the created socket handle,
the timestamp at loop start, and the retry-loop schedule. -/
structure Rtcp4Env where
  wsaError : Option Nat
  resolveOk : Bool
  socketHandle : Nat
  startTime : Nat
  iters : List TcpIter

/-- reverse_tcp4: zero the output buffer, start Winsock, resolve, connect via
reverse_tcp_run, and store the handle in the output buffer only on
ERROR_SUCCESS.  Returns the DWORD result and the final output buffer
value. -/
def reverse_tcp4 (env : Rtcp4Env) (retryTotal retryWait expiry : Nat) : Option (Nat × Nat) :=
  match env.wsaError with
  | some e => some (e, 0)
  | none =>
    if env.resolveOk = false then none
    else
      match reverse_tcp_run expiry retryTotal retryWait env.startTime env.iters with
      | none => none
      | some (r, _) => some (r, if r = ERROR_SUCCESS then env.socketHandle else 0)

/-- One iteration of the reverse_tcp6 retry loop: the connect outcome for
each resolved address in order, then the timestamps at the expiry check and
the while condition. -/
structure Tcp6Iter where
  connects : List Bool
  tAfterConnect : Nat
  tAfterSleep : Nat
  deriving DecidableEq

/-- The reverse_tcp6 retry loop, threading the result variable (initially
ERROR_SUCCESS; set to SOCKET_ERROR by each failed connect).  The first
successful connect stores the handle in the output buffer and returns
ERROR_SUCCESS; otherwise the loop exits on expiry or on the retryTotal
budget with the output buffer still 0. -/
def reverse_tcp6_loop (expiry retryTotal retryWait start handle : Nat) :
    Nat → List Tcp6Iter → Option (Nat × Nat)
  | _, [] =>
    let _ := retryWait
    none
  | result, it :: rest =>
    if it.connects.contains true then some (ERROR_SUCCESS, handle)
    else
      let result := if it.connects.isEmpty then result else SOCKET_ERROR_DWORD
      if expiry ≤ it.tAfterConnect then some (result, 0)
      else if dwordSub it.tAfterSleep start < retryTotal then
        reverse_tcp6_loop expiry retryTotal retryWait start handle result rest
      else some (result, 0)

/-- Environment of one reverse_tcp6 call: WSAStartup and getaddrinfo failure
codes when they fail, the socket creation outcome with the error code on
failure, the created handle, the loop start time and the retry schedule. -/
structure Rtcp6Env where
  wsaError : Option Nat
  gaiError : Option Nat
  socketOk : Bool
  socketErr : Nat
  socketHandle : Nat
  startTime : Nat
  iters : List Tcp6Iter

/-- reverse_tcp6: zero the output buffer, start Winsock, resolve with
getaddrinfo, create the v6 socket, then drive the per-address connect
loop. -/
def reverse_tcp6 (env : Rtcp6Env) (retryTotal retryWait expiry : Nat) : Option (Nat × Nat) :=
  match env.wsaError with
  | some e => some (e, 0)
  | none =>
    match env.gaiError with
    | some e => some (e, 0)
    | none =>
      if env.socketOk = false then some (env.socketErr, 0)
      else
        reverse_tcp6_loop expiry retryTotal retryWait env.startTime env.socketHandle
          ERROR_SUCCESS env.iters

/-- Environment of one bind_tcp call: the WSAStartup failure code when it
fails, whether the v6 socket and the IPV6_V6ONLY toggle succeed (their
failure selects the v4 fallback address, which does not affect the modelled
outputs), and the bind, listen and accept outcomes. -/
structure BindEnv where
  wsaError : Option Nat
  v6SocketOk : Bool
  v6OnlyOk : Bool
  bindError : Option Nat
  listenError : Option Nat
  acceptResult : Except Nat Nat

/-- Whether bind_tcp falls back to a v4-only listening socket. -/
def bindV4Fallback (env : BindEnv) : Bool := !env.v6SocketOk || !env.v6OnlyOk

/-- bind_tcp_run: bind, listen with backlog 1, accept once; the accepted
handle is stored in the output buffer only on success; the listen socket is
closed on every path.  Takes the buffer contents on entry and returns the
DWORD result and the final buffer value. -/
def bind_tcp_run (env : BindEnv) (bufIn : Nat) : Nat × Nat :=
  match env.bindError with
  | some e => (e, bufIn)
  | none =>
    match env.listenError with
    | some e => (e, bufIn)
    | none =>
      match env.acceptResult with
      | .error e => (e, bufIn)
      | .ok s => (ERROR_SUCCESS, s)

/-- bind_tcp: zero the output buffer, start Winsock, create the listener
(falling back to v4 when needed) and run bind_tcp_run on the zeroed
buffer. -/
def bind_tcp (env : BindEnv) : Option (Nat × Nat) :=
  match env.wsaError with
  | some e => some (e, 0)
  | none =>
    let _ := bindV4Fallback env
    some (bind_tcp_run env 0)

/-- Witness environment for claim C10, reverse_tcp4: WSAStartup fails with
code 10091. -/
def c10Env4 : Rtcp4Env :=
  { wsaError := some 10091, resolveOk := true, socketHandle := 33, startTime := 0, iters := [] }

/-- Witness environment for claim C10, reverse_tcp6: getaddrinfo fails with
code 11001. -/
def c10Env6 : Rtcp6Env :=
  { wsaError := none, gaiError := some 11001, socketOk := true, socketErr := 0,
    socketHandle := 34, startTime := 0, iters := [] }

/-- Witness environment for claim C10, bind_tcp: bind fails with code
10048. -/
def c10EnvB : BindEnv :=
  { wsaError := none, v6SocketOk := true, v6OnlyOk := true,
    bindError := some 10048, listenError := none, acceptResult := .ok 35 }

/-!  Theorems.  -/

/-- C1.  The claimed invariant - every successfully written packet has its
wire length field equal to sizeof(header) plus the payload bytes emitted -
fails on the code: res is a DWORD, so the payload-loop checks res <= 0 and
res < 0 are unsigned and a negative SSL_write return is neither caught nor
kept out of idx.  Transmitting the well-formed 12-byte ping packet under
payload write returns 2, -1, 3 makes packet_transmit_via_ssl return
ERROR_SUCCESS while the wire carries the length field 12 followed by 5
payload bytes (byte index 1 is sent twice), and 12 is not 8 + 5. -/
theorem transmit_reports_success_with_corrupted_payload :
    packet_transmit_via_ssl c1Env pingPacket =
      some (ERROR_SUCCESS, [0, 0, 0, 12, 0, 0, 0, 1, 112, 105, 105, 110, 103]) ∧
    fromBytesBE ([0, 0, 0, 12, 0, 0, 0, 1, 112, 105, 105, 110, 103].take 4) = 12 ∧
    ([0, 0, 0, 12, 0, 0, 0, 1, 112, 105, 105, 110, 103].drop 8).length = 5 ∧
    (12 : Nat) ≠ 8 + 5 := by
  refine ⟨by decide, by decide, by decide, by decide⟩

/-- C2.  With a cipher installed, a received PLAIN_REQUEST packet IS
decrypted: the code checks packet_get_type on the localPacket it has just
zeroed, before the received header is copied in, so the received type never
reaches the plaintext check.  Receiving the wire packet with type bytes
00 00 00 01 (PLAIN_REQUEST) and payload ping under the c2Crypto cipher
succeeds and delivers the decrypt output 0 :: ping instead of the wire
payload. -/
theorem receive_decrypts_plain_request_packet :
    packet_receive_via_ssl c2Env =
      some (ERROR_SUCCESS, some
        { lengthBytes := [0, 0, 0, 12], typeBytes := [0, 0, 0, 1],
          payload := [0, 112, 105, 110, 103], payloadLength := 5 }) ∧
    fromBytesBE [0, 0, 0, 1] = PACKET_TLV_TYPE_PLAIN_REQUEST ∧
    ([0, 112, 105, 110, 103] : List Nat) ≠ [112, 105, 110, 103] := by
  refine ⟨by decide, by decide, by decide⟩

/-- C3.  transport_reset_tcp never zeroes the stream handle of the transport
it is given: the C code allocates a brand-new context with malloc instead
of using transport->ctx, zeroes the fd of that fresh copy (closing whatever
garbage handle it contained) and leaks it.  On an SSL transport whose
context holds stream handle 5, the transport comes back bitwise unchanged
with fd still 5, while the garbage handle 77 of the fresh allocation is the
one closed. -/
theorem reset_leaves_transport_context_untouched :
    (transport_reset_tcp (some c3Transport) c3Fresh).1 = some c3Transport ∧
    c3Transport.ctx.fd = 5 ∧
    (5 : Nat) ≠ 0 ∧
    (transport_reset_tcp (some c3Transport) c3Fresh).2.2 = [77] := by
  refine ⟨by decide, by decide, by decide, by decide⟩

/-- C4.  For an inherited IPv6 socket the prober sets bound on a port
MISMATCH: the AF_INET6 branch compares sin6_port with != where the AF_INET
branch uses ==.  With local v6 port 4444 and a single listening sibling v6
socket on port 5555, the scan accepts handle 96, sets bound to true, stores
the 5555 listener address in sock_desc and closes handle 96, although no
equal-port candidate exists. -/
theorem probe_marks_bound_on_v6_port_mismatch :
    (infer_staged_connection_type c4Env c4Ctx0 100).1.bound = true ∧
    (infer_staged_connection_type c4Env c4Ctx0 100).1.sock_desc.port = 5555 ∧
    (infer_staged_connection_type c4Env c4Ctx0 100).2 = [96] ∧
    (5555 : Nat) ≠ 4444 := by
  refine ⟨by decide, by decide, by decide, by decide⟩

/-- C8 counterexample.  A successful receive can deliver a packet whose
payloadLength is not the wire length field minus sizeof(header): with the
c8Crypto cipher installed, the wire packet with length field 12 (4 payload
bytes) decrypts to a 3-byte buffer, and the delivered packet records
payloadLength 3 while ntohl of its stored header.length minus 8 is 4. -/
theorem receive_payload_length_counterexample :
    packet_receive_via_ssl c8Env =
      some (ERROR_SUCCESS, some
        { lengthBytes := [0, 0, 0, 12], typeBytes := [0, 0, 0, 5],
          payload := [170, 187, 204], payloadLength := 3 }) ∧
    dwordSub (fromBytesBE [0, 0, 0, 12]) 8 = 4 ∧
    (3 : Nat) ≠ 4 := by
  refine ⟨by decide, by decide, by decide⟩

/-- C5.  After a successful handshake the 27 cover-traffic bytes are written
exactly once on the TLS session, and negotiation returns failure only when
the return of that write is strictly negative (in fact it then never
returns failure at all, because ret is a DWORD and the unsigned comparison
ret < 0 never fires). -/
theorem negotiate_writes_cover_traffic_once (env : NegotiateEnv) (s : Bool)
    (ws : List (List Nat))
    (h : server_negotiate_ssl env = some (s, ws))
    (hfd : env.setFdOk = true)
    (hhs : handshakeLoop env.handshake = some true) :
    ws = [coverTraffic] ∧ (s = false → env.writeRet < 0) := by
  have heq : server_negotiate_ssl env = some (true, [coverTraffic]) := by
    unfold server_negotiate_ssl
    rw [hfd, hhs]
    simp
  rw [heq] at h
  have h2 := Option.some.inj h
  exact ⟨(congrArg Prod.snd h2).symm,
    fun hfalse => absurd ((congrArg Prod.fst h2).trans hfalse) (by decide)⟩

/-- Witness for C5 at the concrete environment where the handshake succeeds
on the first try and the cover-traffic write returns 0 (a failed write):
the GET is still written exactly once and negotiation does not fail. -/
theorem negotiate_writes_cover_traffic_once_witness :
    server_negotiate_ssl c5Env = some (true, [coverTraffic]) ∧
    ([coverTraffic] = [coverTraffic] ∧ ((true : Bool) = false → c5Env.writeRet < 0)) := by
  constructor
  · decide
  · exact negotiate_writes_cover_traffic_once c5Env true [coverTraffic] (by decide) (by decide) (by decide)

/-- C7.  When the select poll reports a timeout (0) and the timestamp is
past expiration_end or more than timeouts.comms seconds past lastPacket,
the dispatch loop exits with ERROR_SUCCESS and performs no command_handle
call from that iteration on. -/
theorem dispatch_timeout_exits_success (expirationEnd comms : Nat) (result0 : Int)
    (lastPacket : Nat) (it : DispatchIter) (rest : List DispatchIter)
    (hsig : it.sigterm = false)
    (hpoll : it.pollResult = 0)
    (hto : expirationEnd < it.tNow ∨ (comms : Int) < (it.tNow : Int) - (lastPacket : Int)) :
    server_dispatch_loop expirationEnd comms result0 lastPacket (it :: rest) =
      some (ERROR_SUCCESS, 0) := by
  simp [server_dispatch_loop, hsig, hpoll, hto]

/-- Witness for C7: timeouts.comms = 10, last packet at time 100, a poll
timeout observed at time 111 (11 idle seconds), session expiry far away -
the loop exits with ERROR_SUCCESS and command_handle is not called. -/
theorem dispatch_timeout_exits_success_witness :
    server_dispatch_loop 1000000 10 0 100 [c7Iter] = some (ERROR_SUCCESS, 0) :=
  dispatch_timeout_exits_success 1000000 10 0 100 c7Iter [] rfl rfl (Or.inr (by decide))

/-- C9.  transport_get_socket_tcp returns 0 on a null transport and on any
transport whose kind tag is not SSL-over-TCP, and returns the context
stream handle exactly for a non-null SSL transport. -/
theorem get_socket_tcp_spec :
    transport_get_socket_tcp none = 0 ∧
    (∀ t : Transport, t.type ≠ METERPRETER_TRANSPORT_SSL →
      transport_get_socket_tcp (some t) = 0) ∧
    (∀ t : Transport, t.type = METERPRETER_TRANSPORT_SSL →
      transport_get_socket_tcp (some t) = t.ctx.fd) := by
  refine ⟨rfl, fun t ht => ?_, fun t ht => ?_⟩
  · simp [transport_get_socket_tcp, ht]
  · simp [transport_get_socket_tcp, ht]

/-- Witness for C9 at concrete transports: a non-SSL transport yields 0, an
SSL transport with stream handle 7 yields 7. -/
theorem get_socket_tcp_spec_witness :
    transport_get_socket_tcp (some c9OtherTransport) = 0 ∧
    transport_get_socket_tcp (some c9SslTransport) = 7 := by
  constructor
  · exact get_socket_tcp_spec.2.1 c9OtherTransport (by decide)
  · exact (get_socket_tcp_spec.2.2 c9SslTransport (by decide)).trans rfl

/-- Every returning run of the reverse_tcp6 retry loop that does not report
ERROR_SUCCESS leaves the output socket buffer at 0. -/
theorem reverse_tcp6_loop_zero (expiry retryTotal retryWait start handle : Nat) :
    ∀ (iters : List Tcp6Iter) (result0 r b : Nat),
      reverse_tcp6_loop expiry retryTotal retryWait start handle result0 iters = some (r, b) →
      r ≠ ERROR_SUCCESS → b = 0 := by
  intro iters
  induction iters with
  | nil =>
    intro result0 r b h hr
    simp [reverse_tcp6_loop] at h
  | cons it rest ih =>
    intro result0 r b h hr
    unfold reverse_tcp6_loop at h
    by_cases hc : it.connects.contains true
    · simp only [hc, if_true] at h
      exact absurd (congrArg Prod.fst (Option.some.inj h)).symm hr
    · simp only [hc, if_false, Bool.false_eq_true] at h
      by_cases he : expiry ≤ it.tAfterConnect
      · simp only [if_pos he] at h
        exact (congrArg Prod.snd (Option.some.inj h)).symm
      · simp only [if_neg he] at h
        by_cases hw : dwordSub it.tAfterSleep start < retryTotal
        · simp only [if_pos hw] at h
          exact ih _ r b h hr
        · simp only [if_neg hw] at h
          exact (congrArg Prod.snd (Option.some.inj h)).symm

/-- C10.  Each establishment entry point zeroes the caller output buffer
before anything else and stores a handle only on successful establishment,
so a non-success return always leaves the output buffer at 0. -/
theorem establish_socket_buffer_zero_on_failure :
    (∀ (env : Rtcp4Env) (rtot rwait exp r b : Nat),
      reverse_tcp4 env rtot rwait exp = some (r, b) → r ≠ ERROR_SUCCESS → b = 0) ∧
    (∀ (env : Rtcp6Env) (rtot rwait exp r b : Nat),
      reverse_tcp6 env rtot rwait exp = some (r, b) → r ≠ ERROR_SUCCESS → b = 0) ∧
    (∀ (env : BindEnv) (r b : Nat),
      bind_tcp env = some (r, b) → r ≠ ERROR_SUCCESS → b = 0) := by
  refine ⟨?_, ?_, ?_⟩
  · intro env rtot rwait exp r b h hr
    unfold reverse_tcp4 at h
    cases hw : env.wsaError with
    | some e =>
      simp only [hw] at h
      exact (congrArg Prod.snd (Option.some.inj h)).symm
    | none =>
      simp only [hw] at h
      by_cases hres : env.resolveOk = false
      · simp only [if_pos hres] at h
        exact Option.noConfusion h
      · simp only [if_neg hres] at h
        cases hrun : reverse_tcp_run exp rtot rwait env.startTime env.iters with
        | none =>
          simp only [hrun] at h
          exact Option.noConfusion h
        | some p =>
          obtain ⟨r2, evs⟩ := p
          simp only [hrun] at h
          obtain ⟨h1, h2⟩ := Prod.mk.injEq _ _ _ _ ▸ Option.some.inj h
          rw [← h2, if_neg (h1 ▸ hr)]
  · intro env rtot rwait exp r b h hr
    unfold reverse_tcp6 at h
    cases hw : env.wsaError with
    | some e =>
      simp only [hw] at h
      exact (congrArg Prod.snd (Option.some.inj h)).symm
    | none =>
      simp only [hw] at h
      cases hg : env.gaiError with
      | some e =>
        simp only [hg] at h
        exact (congrArg Prod.snd (Option.some.inj h)).symm
      | none =>
        simp only [hg] at h
        by_cases hs : env.socketOk = false
        · simp only [if_pos hs] at h
          exact (congrArg Prod.snd (Option.some.inj h)).symm
        · simp only [if_neg hs] at h
          exact reverse_tcp6_loop_zero exp rtot rwait env.startTime env.socketHandle
            env.iters ERROR_SUCCESS r b h hr
  · intro env r b h hr
    unfold bind_tcp at h
    cases hw : env.wsaError with
    | some e =>
      simp only [hw] at h
      exact (congrArg Prod.snd (Option.some.inj h)).symm
    | none =>
      simp only [hw] at h
      have h2 := Option.some.inj h
      unfold bind_tcp_run at h2
      cases hb : env.bindError with
      | some e =>
        simp only [hb] at h2
        exact (congrArg Prod.snd h2).symm
      | none =>
        simp only [hb] at h2
        cases hl : env.listenError with
        | some e =>
          simp only [hl] at h2
          exact (congrArg Prod.snd h2).symm
        | none =>
          simp only [hl] at h2
          cases ha : env.acceptResult with
          | error e =>
            simp only [ha] at h2
            exact (congrArg Prod.snd h2).symm
          | ok s =>
            simp only [ha] at h2
            exact absurd (congrArg Prod.fst h2).symm hr

/-- Witness for C10 at concrete failing environments: a reverse_tcp4 run
whose WSAStartup fails with 10091, a reverse_tcp6 run whose getaddrinfo
fails with 11001, and a bind_tcp run whose bind fails with 10048 all leave
the output socket buffer at 0. -/
theorem establish_socket_buffer_zero_on_failure_witness :
    reverse_tcp4 c10Env4 1 1 10 = some (10091, 0) ∧
    reverse_tcp6 c10Env6 1 1 10 = some (11001, 0) ∧
    bind_tcp c10EnvB = some (10048, 0) ∧
    (0 : Nat) = 0 ∧ (0 : Nat) = 0 ∧ (0 : Nat) = 0 := by
  refine ⟨by decide, by decide, by decide, ?_, ?_, ?_⟩
  · exact establish_socket_buffer_zero_on_failure.1 c10Env4 1 1 10 10091 0 (by decide) (by decide)
  · exact establish_socket_buffer_zero_on_failure.2.1 c10Env6 1 1 10 11001 0 (by decide) (by decide)
  · exact establish_socket_buffer_zero_on_failure.2.2 c10EnvB 10048 0 (by decide) (by decide)

/-- No Sleep-only event trace contains a closesocket event. -/
theorem closeEv_not_mem_retryEvs (retryWait : Nat) :
    ∀ n, TcpEvent.closeEv ∉ retryEvs retryWait n := by
  intro n
  induction n with
  | zero =>
    intro hmem
    exact (List.not_mem_nil _) hmem
  | succ k ih =>
    intro hmem
    rcases List.mem_cons.mp hmem with h1 | hmem2
    · exact TcpEvent.noConfusion h1
    · rcases List.mem_cons.mp hmem2 with h2 | hmem3
      · exact TcpEvent.noConfusion h2
      · exact ih hmem3

/-- Shape of every returning reverse_tcp_run execution: either some prefix of
failed attempts each within both budgets is followed by a successful
connect (result ERROR_SUCCESS), or such a prefix is followed by a failed
attempt at which the expiry deadline or the retryTotal budget fires
(result SOCKET_ERROR as a DWORD, socket closed). -/
theorem reverse_tcp_run_shape (expiry retryTotal retryWait start : Nat) :
    ∀ (iters : List TcpIter) (r : Nat) (evs : List TcpEvent),
      reverse_tcp_run expiry retryTotal retryWait start iters = some (r, evs) →
      (r = ERROR_SUCCESS ∧
        ∃ pre it post, iters = pre ++ it :: post ∧ it.connectOk = true ∧
          (∀ x ∈ pre, x.connectOk = false ∧ iterKeepsGoing expiry retryTotal start x) ∧
          evs = retryEvs retryWait pre.length ++ [TcpEvent.connectAttempt]) ∨
      (r = SOCKET_ERROR_DWORD ∧
        ∃ pre it post, iters = pre ++ it :: post ∧ it.connectOk = false ∧
          (∀ x ∈ pre, x.connectOk = false ∧ iterKeepsGoing expiry retryTotal start x) ∧
          ¬ iterKeepsGoing expiry retryTotal start it ∧
          ((expiry ≤ it.tAfterConnect ∧
              evs = retryEvs retryWait pre.length ++
                [TcpEvent.connectAttempt, TcpEvent.closeEv]) ∨
           (it.tAfterConnect < expiry ∧ retryTotal ≤ dwordSub it.tAfterSleep start ∧
              evs = retryEvs retryWait pre.length ++
                [TcpEvent.connectAttempt, TcpEvent.sleepEv (retryWait * 1000),
                 TcpEvent.closeEv]))) := by
  intro iters
  induction iters with
  | nil =>
    intro r evs h
    exact Option.noConfusion h
  | cons it rest ih =>
    intro r evs h
    unfold reverse_tcp_run at h
    cases hco : it.connectOk with
    | true =>
      simp only [hco, if_true] at h
      have h2 := Option.some.inj h
      have hr : ERROR_SUCCESS = r := congrArg Prod.fst h2
      have hevs : ([TcpEvent.connectAttempt] : List TcpEvent) = evs := congrArg Prod.snd h2
      refine Or.inl ⟨hr.symm, [], it, rest, rfl, hco, fun x hx => absurd hx (List.not_mem_nil x), ?_⟩
      rw [← hevs]
      rfl
    | false =>
      simp only [hco, Bool.false_eq_true, if_false] at h
      by_cases he : expiry ≤ it.tAfterConnect
      · rw [if_pos he] at h
        have h2 := Option.some.inj h
        have hr : SOCKET_ERROR_DWORD = r := congrArg Prod.fst h2
        have hevs : ([TcpEvent.connectAttempt, TcpEvent.closeEv] : List TcpEvent) = evs :=
          congrArg Prod.snd h2
        refine Or.inr ⟨hr.symm, [], it, rest, rfl, hco,
          fun x hx => absurd hx (List.not_mem_nil x),
          fun hk => absurd hk.1 (not_lt.mpr he), Or.inl ⟨he, ?_⟩⟩
        rw [← hevs]
        rfl
      · rw [if_neg he] at h
        by_cases hw : dwordSub it.tAfterSleep start < retryTotal
        · rw [if_pos hw] at h
          cases hrun : reverse_tcp_run expiry retryTotal retryWait start rest with
          | none =>
            simp only [hrun] at h
            exact Option.noConfusion h
          | some p =>
            obtain ⟨r2, evs2⟩ := p
            simp only [hrun] at h
            have h2 := Option.some.inj h
            have hr : r2 = r := congrArg Prod.fst h2
            have hevs : (TcpEvent.connectAttempt :: TcpEvent.sleepEv (retryWait * 1000) :: evs2) = evs :=
              congrArg Prod.snd h2
            have hkeep : iterKeepsGoing expiry retryTotal start it := ⟨not_le.mp he, hw⟩
            rcases ih r2 evs2 hrun with
              ⟨hr2, pre, it2, post, hiters, hok, hpre, hevs2⟩ |
              ⟨hr2, pre, it2, post, hiters, hok, hpre, hnk, hdisj⟩
            · refine Or.inl ⟨hr ▸ hr2, it :: pre, it2, post, by rw [hiters]; rfl, hok, ?_, ?_⟩
              · intro x hx
                rcases List.mem_cons.mp hx with hx1 | hx2
                · exact hx1 ▸ ⟨hco, hkeep⟩
                · exact hpre x hx2
              · rw [← hevs, hevs2]
                rfl
            · refine Or.inr ⟨hr ▸ hr2, it :: pre, it2, post, by rw [hiters]; rfl, hok, ?_, hnk, ?_⟩
              · intro x hx
                rcases List.mem_cons.mp hx with hx1 | hx2
                · exact hx1 ▸ ⟨hco, hkeep⟩
                · exact hpre x hx2
              · rcases hdisj with ⟨hd1, hd2⟩ | ⟨hd1, hd2, hd3⟩
                · refine Or.inl ⟨hd1, ?_⟩
                  rw [← hevs, hd2]
                  rfl
                · refine Or.inr ⟨hd1, hd2, ?_⟩
                  rw [← hevs, hd3]
                  rfl
        · rw [if_neg hw] at h
          have h2 := Option.some.inj h
          have hr : SOCKET_ERROR_DWORD = r := congrArg Prod.fst h2
          have hevs : ([TcpEvent.connectAttempt, TcpEvent.sleepEv (retryWait * 1000),
              TcpEvent.closeEv] : List TcpEvent) = evs := congrArg Prod.snd h2
          refine Or.inr ⟨hr.symm, [], it, rest, rfl, hco,
            fun x hx => absurd hx (List.not_mem_nil x),
            fun hk => absurd hk.2 hw, Or.inr ⟨not_le.mp he, not_lt.mp hw, ?_⟩⟩
          rw [← hevs]
          rfl

/-- C6.  Every returning reverse_tcp_run execution returns ERROR_SUCCESS
exactly when no closesocket happened; success arises exactly from the
first successful connect after failed attempts that all stayed within both
budgets, with a Sleep of retryWait seconds between attempts; and terminal
failure arises exactly at a failed attempt where the expiry deadline or,
after a final sleep, the retryTotal budget fires - whichever comes first -
with the socket closed and SOCKET_ERROR returned. -/
theorem reverse_tcp_run_retry_spec (expiry retryTotal retryWait start : Nat)
    (iters : List TcpIter) (r : Nat) (evs : List TcpEvent)
    (h : reverse_tcp_run expiry retryTotal retryWait start iters = some (r, evs)) :
    (r = ERROR_SUCCESS ↔ TcpEvent.closeEv ∉ evs) ∧
    (r = ERROR_SUCCESS →
      ∃ pre it post, iters = pre ++ it :: post ∧ it.connectOk = true ∧
        (∀ x ∈ pre, x.connectOk = false ∧ iterKeepsGoing expiry retryTotal start x) ∧
        evs = retryEvs retryWait pre.length ++ [TcpEvent.connectAttempt]) ∧
    (r ≠ ERROR_SUCCESS →
      r = SOCKET_ERROR_DWORD ∧
      ∃ pre it post, iters = pre ++ it :: post ∧ it.connectOk = false ∧
        (∀ x ∈ pre, x.connectOk = false ∧ iterKeepsGoing expiry retryTotal start x) ∧
        ¬ iterKeepsGoing expiry retryTotal start it ∧
        ((expiry ≤ it.tAfterConnect ∧
            evs = retryEvs retryWait pre.length ++
              [TcpEvent.connectAttempt, TcpEvent.closeEv]) ∨
         (it.tAfterConnect < expiry ∧ retryTotal ≤ dwordSub it.tAfterSleep start ∧
            evs = retryEvs retryWait pre.length ++
              [TcpEvent.connectAttempt, TcpEvent.sleepEv (retryWait * 1000),
               TcpEvent.closeEv]))) := by
  rcases reverse_tcp_run_shape expiry retryTotal retryWait start iters r evs h with
    ⟨hr0, pre, it, post, hiters, hok, hpre, hevs⟩ |
    ⟨hrS, pre, it, post, hiters, hok, hpre, hnk, hdisj⟩
  · refine ⟨⟨fun _ => ?_, fun _ => hr0⟩,
      fun _ => ⟨pre, it, post, hiters, hok, hpre, hevs⟩,
      fun hne => absurd hr0 hne⟩
    rw [hevs]
    intro hmem
    rcases List.mem_append.mp hmem with hm1 | hm2
    · exact closeEv_not_mem_retryEvs retryWait pre.length hm1
    · rcases List.mem_cons.mp hm2 with hm3 | hm4
      · exact TcpEvent.noConfusion hm3
      · exact (List.not_mem_nil _) hm4
  · have hrne : r ≠ ERROR_SUCCESS := by
      rw [hrS]
      decide
    refine ⟨⟨fun hr0 => absurd hr0 hrne, fun hnot => ?_⟩,
      fun hr0 => absurd hr0 hrne,
      fun _ => ⟨hrS, pre, it, post, hiters, hok, hpre, hnk, hdisj⟩⟩
    exfalso
    apply hnot
    rcases hdisj with ⟨_, hevs⟩ | ⟨_, _, hevs⟩
    · rw [hevs]
      exact List.mem_append_right _ (by simp)
    · rw [hevs]
      exact List.mem_append_right _ (by simp)

/-- Witness for C6: two scheduled attempts, the first failing within both
budgets and the second connecting; the run returns ERROR_SUCCESS with a
1000 ms sleep between the attempts and no closesocket. -/
theorem reverse_tcp_run_retry_spec_witness :
    TcpEvent.closeEv ∉
      [TcpEvent.connectAttempt, TcpEvent.sleepEv 1000, TcpEvent.connectAttempt] :=
  (reverse_tcp_run_retry_spec 100 50 1 0 c6Iters 0
    [TcpEvent.connectAttempt, TcpEvent.sleepEv 1000, TcpEvent.connectAttempt]
    (by decide)).1.mp rfl

/-- The payload read loop delivers exactly the bytes still missing: on any
returning run the accumulated length plus the remaining count equals the
starting accumulated length plus the requested count. -/
theorem rxPayloadLoop_length :
    ∀ (chunks : List ReadChunk) (left : Nat) (acc out : List Nat) (l : Nat)
      (rest : List ReadChunk),
      rxPayloadLoop chunks left acc = some (out, l, rest) →
      out.length + l = acc.length + left := by
  intro chunks
  induction chunks with
  | nil =>
    intro left acc out l rest h
    unfold rxPayloadLoop at h
    by_cases hl : left = 0
    · rw [if_pos hl] at h
      have h2 := Option.some.inj h
      have ho : out = acc := (congrArg (fun x => x.1) h2).symm
      have hll : l = 0 := (congrArg (fun x => x.2.1) h2).symm
      rw [ho, hll, hl]
    · rw [if_neg hl] at h
      exact Option.noConfusion h
  | cons c rest2 ih =>
    intro left acc out l rest h
    unfold rxPayloadLoop at h
    by_cases hl : left = 0
    · rw [if_pos hl] at h
      have h2 := Option.some.inj h
      have ho : out = acc := (congrArg (fun x => x.1) h2).symm
      have hll : l = 0 := (congrArg (fun x => x.2.1) h2).symm
      rw [ho, hll, hl]
    · rw [if_neg hl] at h
      cases c with
      | bytes bs =>
        by_cases hb : bs.length = 0 ∨ left < bs.length
        · simp only [if_pos hb] at h
          exact Option.noConfusion h
        · simp only [if_neg hb] at h
          have hrec := ih (left - bs.length) (acc ++ bs) out l rest h
          push_neg at hb
          rw [List.length_append] at hrec
          omega
      | rzero wb =>
        by_cases hwb : wb = true
        · simp only [hwb, if_true] at h
          exact ih left acc out l rest h
        · simp only [hwb] at h
          rw [if_neg (by simp [hwb])] at h
          have h2 := Option.some.inj h
          have ho : out = acc := (congrArg (fun x => x.1) h2).symm
          have hll : l = left := (congrArg (fun x => x.2.1) h2).symm
          rw [ho, hll]
      | rneg wb =>
        by_cases hwb : wb = true
        · simp only [hwb, if_true] at h
          exact ih left acc out l rest h
        · simp only [hwb] at h
          rw [if_neg (by simp [hwb])] at h
          have h2 := Option.some.inj h
          have ho : out = acc := (congrArg (fun x => x.1) h2).symm
          have hll : l = left := (congrArg (fun x => x.2.1) h2).symm
          rw [ho, hll]

/-- C8 amended.  On every successful receive the caller owns a packet whose
payload buffer holds exactly payloadLength bytes; that payloadLength equals
the wire length field (host order) minus sizeof(header) whenever no cipher
is installed, and with a cipher installed it is the length of the decrypt
output of the wire payload, whose own length is the wire length field minus
sizeof(header). -/
theorem receive_success_payload_length (env : RxEnv) (r : Nat) (op : Option PacketOut)
    (h : packet_receive_via_ssl env = some (r, op)) (hr : r = ERROR_SUCCESS) :
    ∃ pkt, op = some pkt ∧ pkt.payload.length = pkt.payloadLength ∧
      (env.crypto = none → pkt.payloadLength = dwordSub (fromBytesBE pkt.lengthBytes) 8) ∧
      (∀ c, env.crypto = some c →
        ∃ w : List Nat, w.length = dwordSub (fromBytesBE pkt.lengthBytes) 8 ∧
          c.decrypt w = (ERROR_SUCCESS, pkt.payload)) := by
  unfold packet_receive_via_ssl at h
  cases hH : rxHeaderLoop env.reads 0 [] with
  | none =>
    simp only [hH] at h
    exact Option.noConfusion h
  | some trip =>
    obtain ⟨hdr, complete, rest⟩ := trip
    simp only [hH] at h
    by_cases hcomp : complete = false
    · rw [if_pos hcomp] at h
      have hfst : ERROR_NOT_FOUND = r := congrArg Prod.fst (Option.some.inj h)
      exact absurd (hfst.trans hr) (by decide)
    · rw [if_neg hcomp] at h
      by_cases hpm : env.payloadMallocOk = false
      · rw [if_pos hpm] at h
        have hfst : ERROR_NOT_ENOUGH_MEMORY = r := congrArg Prod.fst (Option.some.inj h)
        exact absurd (hfst.trans hr) (by decide)
      · rw [if_neg hpm] at h
        cases hP : rxPayloadLoop rest (dwordSub (fromBytesBE (hdr.take 4)) 8) [] with
        | none =>
          simp only [hP] at h
          exact Option.noConfusion h
        | some trip2 =>
          obtain ⟨pay, left, rest2⟩ := trip2
          simp only [hP] at h
          by_cases hleft : left ≠ 0
          · rw [if_pos hleft] at h
            have hfst : ERROR_NOT_FOUND = r := congrArg Prod.fst (Option.some.inj h)
            exact absurd (hfst.trans hr) (by decide)
          · rw [if_neg hleft] at h
            push_neg at hleft
            have hpayLen : pay.length = dwordSub (fromBytesBE (hdr.take 4)) 8 := by
              have := rxPayloadLoop_length rest (dwordSub (fromBytesBE (hdr.take 4)) 8)
                [] pay left rest2 hP
              simp only [List.length_nil, Nat.zero_add] at this
              omega
            by_cases hkm : env.packetMallocOk = false
            · rw [if_pos hkm] at h
              have hfst : ERROR_NOT_ENOUGH_MEMORY = r := congrArg Prod.fst (Option.some.inj h)
              exact absurd (hfst.trans hr) (by decide)
            · rw [if_neg hkm] at h
              cases hcr : env.crypto with
              | none =>
                simp only [hcr] at h
                have h2 := Option.some.inj h
                have hop : op = some (mkPacketOut hdr pay) := (congrArg Prod.snd h2).symm
                refine ⟨mkPacketOut hdr pay, hop, rfl, fun _ => ?_, fun c hc => ?_⟩
                · simpa [mkPacketOut] using hpayLen
                · exact Option.noConfusion hc
              | some c =>
                simp only [hcr] at h
                rw [if_neg (by decide)] at h
                by_cases hd : (c.decrypt pay).1 ≠ ERROR_SUCCESS
                · rw [if_pos hd] at h
                  have hfst : (c.decrypt pay).1 = r := congrArg Prod.fst (Option.some.inj h)
                  exact absurd (hfst.trans hr) hd
                · rw [if_neg hd] at h
                  push_neg at hd
                  have h2 := Option.some.inj h
                  have hop : op = some (mkPacketOut hdr (c.decrypt pay).2) :=
                    (congrArg Prod.snd h2).symm
                  refine ⟨mkPacketOut hdr (c.decrypt pay).2, hop, rfl,
                    fun hnone => Option.noConfusion hnone, fun c2 hc2 => ?_⟩
                  have hcc : c2 = c := (Option.some.inj hc2).symm
                  subst hcc
                  refine ⟨pay, by simpa [mkPacketOut] using hpayLen, ?_⟩
                  exact Prod.ext hd rfl

/-- Witness for the amended C8: a successful no-cipher receive of a wire
packet with length field 12 delivers a packet with 4 payload bytes and
payloadLength 4 = ntohl(12) - 8. -/
theorem receive_success_payload_length_witness :
    ∃ pkt, (some c8wPacket : Option PacketOut) = some pkt ∧
      pkt.payload.length = pkt.payloadLength ∧
      (c8wEnv.crypto = none → pkt.payloadLength = dwordSub (fromBytesBE pkt.lengthBytes) 8) ∧
      (∀ c, c8wEnv.crypto = some c →
        ∃ w : List Nat, w.length = dwordSub (fromBytesBE pkt.lengthBytes) 8 ∧
          c.decrypt w = (ERROR_SUCCESS, pkt.payload)) :=
  receive_success_payload_length c8wEnv ERROR_SUCCESS (some c8wPacket) (by decide) rfl

end MeterpreterTcp
